import Mathlib

/-!
Verification of `hydromt/workflows/rivers.py` (`river_width`, `river_depth`)
against its design specification, via a shallow embedding.

Modelling conventions:
* Rasters are flattened to lists of cell values (grid shape is irrelevant to
  the properties verified here; the hole-filling and label-spreading
  primitives are external collaborators and are modelled as abstract
  functions on the flattened grids).
* `scipy.ndimage.binary_fill_holes`, the raster accessor's `rasterize`, the
  geometry length capability (`gdf.to_crs(crs).length`) and
  `gis_utils.spread2d` are external collaborators; they are fields of an
  `Externals` record and the theorems hold for every choice of them.
* Machine floats are modelled as `ℚ` for the width pipeline (only field
  arithmetic and comparisons occur) and as `ℝ` for the depth pipeline
  (the `powlaw` formula uses a fractional power, modelled by `Real.rpow`).
* Python `assert` / `raise ValueError` failures are modelled by `Except`
  error values, named by the spec's error taxonomy
  (`InvalidProjectionError`, `UnsupportedMethodError`,
  `MissingDependencyError`).
-/

namespace HydromtRivers

/-- A coordinate reference system: the `is_projected` flag consulted by
`river_width` (line 40) plus an opaque identity used by the geometry
length capability (`to_crs`). -/
structure CRS where
  projected : Bool
  code : ℕ
deriving DecidableEq, Repr, Inhabited

/-- Opaque identity of one segment's polyline geometry. -/
abbrev Geom := ℕ

/-- The caller's `gdf_stream : gpd.GeoDataFrame`: per-row geometries plus the
optional `rivlen` and `segid` columns (a column is present for all rows or
for none). -/
structure GeoDataFrame where
  geoms : List Geom
  rivlen_col : Option (List ℚ)
  segid_col : Option (List ℤ)
deriving DecidableEq, Repr, Inhabited

/-- The caller's `da_rivmask : xr.DataArray`: a boolean grid (flattened),
its resolution pair `raster.res` and its CRS. -/
structure DataArrayB where
  resx : ℚ
  resy : ℚ
  crs : CRS
  data : List Bool
deriving DecidableEq, Repr, Inhabited

/-- External collaborator capabilities consumed by `river_width`:
the geometry length capability, the raster accessor's `rasterize`,
`scipy.ndimage.binary_fill_holes` and `gis_utils.spread2d`.  All theorems
about `river_width` hold for every choice of these functions. -/
structure Externals where
  /-- Planar length of one geometry's polyline reprojected to `crs`
  (`gdf.to_crs(crs).length`). -/
  to_crs_length : CRS → Geom → ℚ
  /-- Rasterization capability (`da.raster.rasterize(gdf, "segid")`): burn
  the per-row `segid` values of the given geometries onto the grid of
  `da`. -/
  rasterize : DataArrayB → List Geom → List ℤ → List ℤ
  /-- Hole filling (`scipy.ndimage.binary_fill_holes`) on the flattened
  mask. -/
  binary_fill_holes : List Bool → List Bool
  /-- Label spreading (`gis_utils.spread2d`): propagate the nearest nonzero
  label to every cell that is true in the given mask (external contract,
  §4.3). -/
  spread2d : List ℤ → List Bool → List ℤ

/-- Error taxonomy of the spec (§7); `river_width` can only fail with
`invalidProjection` (the `assert` on line 40). -/
inductive RwError where
  | invalidProjection
deriving DecidableEq, Repr

/-- Line 46: `gdf_stream["segid"] = np.arange(1, gdf_stream.index.size + 1)`. -/
def segids_of (geoms : List Geom) : List ℤ :=
  (List.range geoms.length).map (fun i => (i : ℤ) + 1)

/-- Lines 43–44: use the supplied `rivlen` column when present, otherwise
compute it as the planar length of each geometry reprojected to the mask
CRS. -/
def rivlen_of (ext : Externals) (crs : CRS) (gdf : GeoDataFrame) : List ℚ :=
  match gdf.rivlen_col with
  | some l => l
  | none => gdf.geoms.map (ext.to_crs_length crs)

/-- Line 56: `cellarea = abs(np.multiply(*da_rivmask.raster.res))`. -/
def cellarea (da : DataArrayB) : ℚ :=
  |da.resx * da.resy|

/-- One entry of `scipy.ndimage.sum(input, labels, index)` with boolean
`input`: the number of cells that are true in `mask` and whose label equals
`sid` (True sums as 1). -/
def zonal_sum (mask : List Bool) (labels : List ℤ) (sid : ℤ) : ℚ :=
  (((mask.zip labels).filter (fun p => p.1 && (p.2 == sid))).length : ℚ)

/-- Lines 47–59: rasterize the segids, fill the holes of a copy of the
mask, spread the labels over the filled mask, and zonal-sum the ORIGINAL
mask per segid. -/
def seg_count (ext : Externals) (gdf : GeoDataFrame) (da : DataArrayB) : List ℚ :=
  let segid_r := ext.rasterize da gdf.geoms (segids_of gdf.geoms)
  let mask_filled := ext.binary_fill_holes da.data
  let labels := ext.spread2d segid_r mask_filled
  (segids_of gdf.geoms).map (zonal_sum da.data labels)

/-- The function `river_width` (lines 17–62): segment-average river width from a river
mask raster.  Fails with `invalidProjection` when the mask CRS is not
projected (line 40); otherwise returns, per segment,
`seg_count * cellarea / rivlen` where `rivlen > 0` and `seg_count > nmin`,
and the sentinel `-9999` elsewhere (lines 60–62). -/
def river_width (ext : Externals) (gdf : GeoDataFrame) (da : DataArrayB)
    (nmin : ℚ) : Except RwError (List ℚ) :=
  if da.crs.projected then
    let rivlen := rivlen_of ext da.crs gdf
    let counts := seg_count ext gdf da
    .ok (List.zipWith
      (fun c l => if 0 < l ∧ nmin < c then c * cellarea da / l else -9999)
      counts rivlen)
  else
    .error .invalidProjection

/-!
## Heap-level view of `river_width` (for the mutation/frame property)

Python objects are heap cells; the caller passes references `pg` (the
GeoDataFrame) and `pm` (the mask DataArray).  Each statement of the source
that mutates an object is rendered as an update of the corresponding heap
cell, and `.copy()` allocates a fresh cell, so the embedding shows which
object every write targets.
-/

/-- The heap visible to a `river_width` call: GeoDataFrame objects and
boolean-raster objects (the integer `segid` raster returned by `rasterize`
is a fresh object never aliased with an input, so it is kept as a plain
value). -/
structure PyHeap where
  gdfs : List GeoDataFrame
  rasters : List DataArrayB
deriving DecidableEq, Repr, Inhabited

/-- Statement-by-statement heap semantics of `river_width`: takes the heap
and references to the caller's two argument objects, returns the final
heap together with the return value.  Line numbers refer to
`hydromt/workflows/rivers.py`. -/
def river_width_impl (ext : Externals) (h0 : PyHeap) (pg pm : ℕ)
    (nmin : ℚ) : PyHeap × Except RwError (List ℚ) :=
  let gdf0 := h0.gdfs.getD pg default
  let da := h0.rasters.getD pm default
  -- line 40: assert da_rivmask.raster.crs.is_projected
  if da.crs.projected then
    -- line 41: gdf_stream = gdf_stream.copy()  (fresh object, local rebind)
    let pg1 := h0.gdfs.length
    let h1 : PyHeap := { h0 with gdfs := h0.gdfs ++ [gdf0] }
    -- lines 43–44: write the rivlen column of the copy when absent
    let g1 := h1.gdfs.getD pg1 default
    let g2 := if g1.rivlen_col.isSome then g1
      else { g1 with rivlen_col := some (g1.geoms.map (ext.to_crs_length da.crs)) }
    -- line 46: write the segid column of the copy
    let g3 := { g2 with segid_col := some (segids_of g2.geoms) }
    let h2 : PyHeap := { h1 with gdfs := h1.gdfs.set pg1 g3 }
    -- lines 47–49: rasterize into a fresh integer raster (set_nodata and
    -- name are writes to that fresh object only)
    let segid_r := ext.rasterize da g3.geoms (g3.segid_col.getD [])
    -- line 51: da_mask = da_rivmask.copy()  (fresh object, local rebind)
    let pm1 := h2.rasters.length
    let h3 : PyHeap := { h2 with rasters := h2.rasters ++ [da] }
    -- line 52: da_mask.data = ndimage.binary_fill_holes(da_mask.values)
    let m1 := h3.rasters.getD pm1 default
    let h4 : PyHeap :=
      { h3 with rasters :=
          h3.rasters.set pm1 { m1 with data := ext.binary_fill_holes m1.data } }
    let m2 := h4.rasters.getD pm1 default
    -- line 54: segid_spread = spread2d(segid, da_mask)
    let labels := ext.spread2d segid_r m2.data
    -- lines 56–62
    let ca := cellarea da
    let counts := (g3.segid_col.getD []).map (zonal_sum da.data labels)
    let rivlen := g3.rivlen_col.getD []
    (h4, .ok (List.zipWith
      (fun c l => if 0 < l ∧ nmin < c then c * ca / l else -9999)
      counts rivlen))
  else
    (h0, .error .invalidProjection)

/-!
## `river_depth` (lines 65–143)

The depth pipeline works elementwise on real-valued variables; the
`powlaw` power is `Real.rpow`.  The input is either a full gridded dataset
(`xr.Dataset`) or a table (`pd.DataFrame` / `gpd.GeoDataFrame`); both are
a named collection of columns, and the dataset additionally carries the
raster metadata used to re-wrap the result.
-/

/-- Grid/coordinate metadata of an `xr.Dataset` (`data.raster.dims`,
`data.raster.coords`, `data.raster.crs`), kept opaque. -/
structure RasterMeta where
  rdims : ℕ
  rcoords : ℕ
  rcrs : CRS
deriving DecidableEq, Repr, Inhabited

/-- The `data` argument of `river_depth`: `is_dataset` records
`isinstance(data, xr.Dataset)`; `cols` are the named variables
(`data[name]`); `meta` is the raster metadata (consulted only when
`is_dataset`). -/
structure DataInput where
  is_dataset : Bool
  cols : List (String × List ℝ)
  meta : RasterMeta

/-- Column access `data[name]`: the named variable's values. -/
def getCol (d : DataInput) (name : String) : List ℝ :=
  ((d.cols.find? (fun p => p.1 == name)).map Prod.snd).getD []

/-- Membership `name in data`: test for a named variable. -/
def memCol (d : DataInput) (name : String) : Bool :=
  (d.cols.find? (fun p => p.1 == name)).isSome

/-- The flow-direction network collaborator (`pyflwdir.Flwdir` /
`FlwdirRaster`): only its `river_depth` capability is consumed, with
arguments `(qbankfull, rivwth, zs?, rivdst?, rivslp?, manning, method,
min_rivdph)`. -/
structure Flwdir where
  river_depth_fn : List ℝ → List ℝ → Option (List ℝ) → Option (List ℝ) →
    Option (List ℝ) → ℝ → String → ℝ → List ℝ

/-- Error taxonomy of the spec (§7) for `river_depth`: the `raise
ValueError` of line 136 (naming the offending method and the legal
choices) and the `assert flwdir is not None` of line 123. -/
inductive RdError where
  | unsupportedMethod (method : String) (methods : List String)
  | missingDependency
deriving DecidableEq, Repr

/-- Line 115: `methods = ["powlaw", "manning", "gvf"]`. -/
def methods : List String := ["powlaw", "manning", "gvf"]

/-- Lines 118–119: `rivdph_powlaw(qbankfull, hc=0.27, hp=0.30,
min_rivdph=1.0) = np.maximum(hc * qbankfull ** hp, min_rivdph)`,
elementwise. -/
noncomputable def rivdph_powlaw (qbankfull : List ℝ) (hc hp min_rivdph : ℝ) :
    List ℝ :=
  qbankfull.map (fun q => max (hc * Real.rpow q hp) min_rivdph)

/-- Lines 115–136 of `river_depth`: method dispatch, before the output
wrapping.  `hc` and `hp` stand for the `**kwargs` consumed by the
`powlaw` branch (defaults 0.27 and 0.30). -/
noncomputable def river_depth_raw (data : DataInput) (method : String)
    (flwdir : Option Flwdir) (min_rivdph manning : ℝ)
    (qbankfull_name rivwth_name rivzs_name rivdst_name rivslp_name : String)
    (hc hp : ℝ) : Except RdError (List ℝ) :=
  if method = "powlaw" then
    .ok (rivdph_powlaw (getCol data qbankfull_name) hc hp min_rivdph)
  else if method ∈ ["manning", "gvf"] then
    match flwdir with
    | none => .error .missingDependency
    | some f =>
      .ok (f.river_depth_fn (getCol data qbankfull_name)
        (getCol data rivwth_name)
        (if memCol data rivzs_name then some (getCol data rivzs_name) else none)
        (if memCol data rivdst_name then some (getCol data rivdst_name) else none)
        (if memCol data rivslp_name then some (getCol data rivslp_name) else none)
        manning method min_rivdph)
  else
    .error (.unsupportedMethod method methods)

/-- The value returned by `river_depth`: either a re-wrapped georeferenced
`xr.DataArray` (dims, coords, CRS, nodata, values) or a raw numeric
array. -/
inductive RivDphResult where
  | dataArray (dims coords : ℕ) (crs : CRS) (nodata : ℝ) (values : List ℝ)
  | arr (values : List ℝ)

/-- The function `river_depth` (lines 65–143): method dispatch followed by the output
wrapping of lines 137–143 — when the input is an `xr.Dataset` the result
is re-wrapped as a `DataArray` with the input's dims/coords, nodata
`-9999.0` and the input's CRS; otherwise the raw array is returned. -/
noncomputable def river_depth (data : DataInput) (method : String)
    (flwdir : Option Flwdir) (min_rivdph manning : ℝ)
    (qbankfull_name rivwth_name rivzs_name rivdst_name rivslp_name : String)
    (hc hp : ℝ) : Except RdError RivDphResult :=
  (river_depth_raw data method flwdir min_rivdph manning qbankfull_name
      rivwth_name rivzs_name rivdst_name rivslp_name hc hp).map
    (fun rivdph =>
      if data.is_dataset then
        .dataArray data.meta.rdims data.meta.rcoords data.meta.rcrs
          (-9999.0) rivdph
      else
        .arr rivdph)

/-!
## Concrete fixtures

Small concrete inputs used to evaluate the pipeline on examples.
-/

/-- A projected CRS. -/
def crsP : CRS := ⟨true, 0⟩

/-- A geographic (non-projected) CRS. -/
def crsG : CRS := ⟨false, 1⟩

/-- Concrete collaborators: each geometry's planar length is its id,
`rasterize` labels every cell with the first segid, hole filling fills
everything, and `spread2d` returns the label grid unchanged. -/
def extT : Externals :=
  ⟨fun _ g => (g : ℚ),
   fun da _ sids => da.data.map (fun _ => sids.headD 1),
   fun m => m.map (fun _ => true),
   fun labs _ => labs⟩

/-- Two segments with a supplied `rivlen` column `[2, 0]`. -/
def gdfT : GeoDataFrame := ⟨[10, 20], some [2, 0], none⟩

/-- A projected 8-cell mask with 7 river cells and resolution `(1, -1)`. -/
def daT : DataArrayB := ⟨1, -1, crsP, [true, true, true, true, true, true, true, false]⟩

/-- A mask raster whose CRS is geographic. -/
def daG : DataArrayB := ⟨1, -1, crsG, [true]⟩

/-- A heap holding the two caller objects. -/
def heapT : PyHeap := ⟨[gdfT], [daT]⟩

/-- A gridded dataset input with a single zero `qbankfull` value. -/
def dataT : DataInput := ⟨true, [("qbankfull", [0])], ⟨0, 0, crsP⟩⟩

/-- A table-shaped (non-dataset) input with no variables. -/
def dataF : DataInput := ⟨false, [], ⟨0, 0, crsP⟩⟩

/-!
## Helper lemmas
-/

lemma get?_zipWith_some {α β γ : Type} (f : α → β → γ) (l₁ : List α)
    (l₂ : List β) (i : ℕ) (a : α) (b : β) (h₁ : l₁.get? i = some a)
    (h₂ : l₂.get? i = some b) :
    (List.zipWith f l₁ l₂).get? i = some (f a b) := by
  rw [List.get?_zipWith', h₁, h₂]
  rfl

lemma zonal_sum_nonneg (mask : List Bool) (labels : List ℤ) (sid : ℤ) :
    0 ≤ zonal_sum mask labels sid := by
  unfold zonal_sum
  exact_mod_cast Nat.zero_le _

lemma zonal_sum_nil (labels : List ℤ) (sid : ℤ) :
    zonal_sum [] labels sid = 0 := rfl

lemma zonal_sum_cons (b : Bool) (ms : List Bool) (a : ℤ) (tl : List ℤ)
    (sid : ℤ) :
    zonal_sum (b :: ms) (a :: tl) sid =
      (if b && (a == sid) then 1 else 0) + zonal_sum ms tl sid := by
  unfold zonal_sum
  rw [List.zip_cons_cons, List.filter_cons]
  split
  · simp [List.length_cons]
    ring
  · simp

/-- The zonal sum over `mask` only looks at labels of mask-true cells:
two label rasters that agree on every mask-true cell give the same sum. -/
lemma zonal_sum_congr (mask : List Bool) (l l' : List ℤ) (sid : ℤ)
    (hlen : l.length = l'.length)
    (h : ∀ i, i < mask.length → mask.get? i = some true →
      l.get? i = l'.get? i) :
    zonal_sum mask l sid = zonal_sum mask l' sid := by
  induction mask generalizing l l' with
  | nil => simp [zonal_sum_nil]
  | cons b ms ih =>
    cases l with
    | nil =>
      cases l' with
      | nil => rfl
      | cons c cs => simp at hlen
    | cons a tl =>
      cases l' with
      | nil => simp at hlen
      | cons c cs =>
        have htl : zonal_sum ms tl sid = zonal_sum ms cs sid := by
          refine ih tl cs (by simpa using hlen) ?_
          intro i hi hm
          simpa using h (i + 1) (by simpa using hi) (by simpa using hm)
        cases b with
        | false =>
          rw [zonal_sum_cons, zonal_sum_cons, htl]
          simp
        | true =>
          have hac : a = c := by
            simpa using h 0 (by simp) rfl
          rw [zonal_sum_cons, zonal_sum_cons, htl, hac]

lemma seg_count_get?_nonneg (ext : Externals) (gdf : GeoDataFrame)
    (da : DataArrayB) (i : ℕ) (c : ℚ)
    (h : (seg_count ext gdf da).get? i = some c) : 0 ≤ c := by
  unfold seg_count at h
  rw [List.get?_map] at h
  cases hx : (segids_of gdf.geoms).get? i with
  | none => rw [hx] at h; exact absurd h (by simp)
  | some sid =>
    rw [hx] at h
    simp only [Option.map_some'] at h
    rw [← Option.some.inj h]
    exact zonal_sum_nonneg _ _ _

lemma getD_concat_length {α : Type} (l : List α) (x d : α) :
    (l ++ [x]).getD l.length d = x := by
  simp [List.getD, List.get?_concat_length]

lemma getD_set_self {α : Type} (l : List α) (i : ℕ) (x d : α)
    (h : i < l.length) : (l.set i x).getD i d = x := by
  rw [List.getD, List.get?_set_eq_of_lt x h]
  rfl

/-!
## Claims about `river_width`
-/

/-- C1: for every segment, `river_width` computes `cellarea` as the
absolute product of the mask raster's x and y resolutions and returns
`seg_count * cellarea / rivlen` when `rivlen > 0` and `seg_count > nmin`,
and the sentinel `-9999` otherwise; a segment with `seg_count ≤ nmin`
yields `-9999`, and one with `seg_count = nmin + 1` and `rivlen > 0`
yields the finite non-negative width `seg_count * cellarea / rivlen`. -/
theorem river_width_formula (ext : Externals) (gdf : GeoDataFrame)
    (da : DataArrayB) (nmin : ℚ) (h : da.crs.projected = true) :
    cellarea da = |da.resx * da.resy| ∧
    river_width ext gdf da nmin = .ok (List.zipWith
      (fun c l => if 0 < l ∧ nmin < c then c * cellarea da / l else -9999)
      (seg_count ext gdf da) (rivlen_of ext da.crs gdf)) ∧
    (∀ i c l, (seg_count ext gdf da).get? i = some c →
      (rivlen_of ext da.crs gdf).get? i = some l →
      ∃ ws, river_width ext gdf da nmin = .ok ws ∧
        (c ≤ nmin → ws.get? i = some (-9999)) ∧
        (c = nmin + 1 → 0 < l →
          ws.get? i = some (c * cellarea da / l) ∧
          0 ≤ c * cellarea da / l)) := by
  refine ⟨rfl, by simp [river_width, h], ?_⟩
  intro i c l hc hl
  refine ⟨List.zipWith
      (fun c l => if 0 < l ∧ nmin < c then c * cellarea da / l else -9999)
      (seg_count ext gdf da) (rivlen_of ext da.crs gdf),
    by simp [river_width, h], ?_, ?_⟩
  · intro hle
    have : ¬(0 < l ∧ nmin < c) := fun hand => absurd hle (not_le.mpr hand.2)
    rw [get?_zipWith_some _ _ _ _ _ _ hc hl, if_neg this]
  · intro hsucc hpos
    have hgt : nmin < c := by rw [hsucc]; exact lt_add_one nmin
    constructor
    · rw [get?_zipWith_some _ _ _ _ _ _ hc hl, if_pos ⟨hpos, hgt⟩]
    · have h0c : 0 ≤ c := seg_count_get?_nonneg ext gdf da i c hc
      have h0a : 0 ≤ cellarea da := abs_nonneg _
      positivity

/-- C2: `seg_count` is the zonal sum over the ORIGINAL river mask of the
labels propagated over the hole-filled mask; and the zonal sum ignores
labels at mask-false cells, so cells of filled holes contribute zero. -/
theorem river_width_seg_count_original_mask (ext : Externals)
    (gdf : GeoDataFrame) (da : DataArrayB) :
    seg_count ext gdf da = (segids_of gdf.geoms).map (zonal_sum da.data
      (ext.spread2d (ext.rasterize da gdf.geoms (segids_of gdf.geoms))
        (ext.binary_fill_holes da.data))) ∧
    (∀ labels labels' sid, labels.length = labels'.length →
      (∀ i, i < da.data.length → da.data.get? i = some true →
        labels.get? i = labels'.get? i) →
      zonal_sum da.data labels sid = zonal_sum da.data labels' sid) := by
  exact ⟨rfl, fun labels labels' sid hlen h =>
    zonal_sum_congr da.data labels labels' sid hlen h⟩

/-- C4: a mask raster with a non-projected CRS makes `river_width` fail
with `InvalidProjectionError`, and at the heap level the failure leaves
the whole heap untouched (no partial result). -/
theorem river_width_invalid_projection (ext : Externals)
    (gdf : GeoDataFrame) (da : DataArrayB) (nmin : ℚ)
    (h : da.crs.projected = false) :
    river_width ext gdf da nmin = .error .invalidProjection ∧
    (∀ h0 pg pm, h0.rasters.getD pm default = da →
      river_width_impl ext h0 pg pm nmin = (h0, .error .invalidProjection)) := by
  constructor
  · simp [river_width, h]
  · intro h0 pg pm hda
    subst hda
    simp only [List.getD, List.get?_eq_getElem?] at h
    simp [river_width_impl, List.getD, h]

/-- C7: a segment whose `rivlen` is 0 gets the sentinel `-9999` (for any
mask content), while the call as a whole still succeeds with an `ok`
result: the division by `rivlen` is masked out by the validity policy,
not raised as an error. -/
theorem river_width_zero_rivlen_sentinel (ext : Externals)
    (gdf : GeoDataFrame) (da : DataArrayB) (nmin : ℚ)
    (h : da.crs.projected = true) :
    ∃ ws, river_width ext gdf da nmin = .ok ws ∧
      ∀ i c, (rivlen_of ext da.crs gdf).get? i = some 0 →
        (seg_count ext gdf da).get? i = some c →
        ws.get? i = some (-9999) := by
  refine ⟨List.zipWith
      (fun c l => if 0 < l ∧ nmin < c then c * cellarea da / l else -9999)
      (seg_count ext gdf da) (rivlen_of ext da.crs gdf),
    by simp [river_width, h], ?_⟩
  intro i c hl hc
  rw [get?_zipWith_some _ _ _ _ _ _ hc hl,
    if_neg (fun hand => lt_irrefl (0 : ℚ) hand.1)]

lemma get?_append_set_preserved {α : Type} (l : List α) (x y : α) (n : ℕ)
    (h : n < l.length) :
    ((l ++ [x]).set l.length y).get? n = l.get? n := by
  rw [List.get?_set_ne _ _ (Nat.ne_of_gt h)]
  exact List.get?_append h

lemma getD_append_set {α : Type} (l : List α) (x y d : α) :
    ((l ++ [x]).set l.length y).getD l.length d = y := by
  apply getD_set_self
  simp

/-- C9: `river_width` leaves both caller objects unchanged — the segment
GeoDataFrame is copied before the `rivlen`/`segid` columns are written
and the mask raster is copied before hole filling — and the heap-level
run returns the same value as the pure function of the two inputs. -/
theorem river_width_no_input_mutation (ext : Externals) (h0 : PyHeap)
    (pg pm : ℕ) (nmin : ℚ) (hg : pg < h0.gdfs.length)
    (hm : pm < h0.rasters.length) :
    (river_width_impl ext h0 pg pm nmin).1.gdfs.get? pg = h0.gdfs.get? pg ∧
    (river_width_impl ext h0 pg pm nmin).1.rasters.get? pm =
      h0.rasters.get? pm ∧
    (river_width_impl ext h0 pg pm nmin).2 =
      river_width ext (h0.gdfs.getD pg default)
        (h0.rasters.getD pm default) nmin := by
  by_cases hproj : (h0.rasters.getD pm default).crs.projected = true
  · refine ⟨?_, ?_, ?_⟩
    · simp only [river_width_impl, hproj]
      simp only [if_true]
      exact get?_append_set_preserved _ _ _ _ hg
    · simp only [river_width_impl, hproj]
      simp only [if_true]
      exact get?_append_set_preserved _ _ _ _ hm
    · rcases hcol : (h0.gdfs.getD pg default).rivlen_col with _ | l
      · simp only [List.getD, List.get?_eq_getElem?] at hproj hcol
        simp [river_width_impl, river_width, List.getD, hproj, hcol,
          seg_count, rivlen_of, getD_concat_length, getD_append_set]
      · simp only [List.getD, List.get?_eq_getElem?] at hproj hcol
        simp [river_width_impl, river_width, List.getD, hproj, hcol,
          seg_count, rivlen_of, getD_concat_length, getD_append_set]
  · simp only [List.getD, List.get?_eq_getElem?] at hproj
    refine ⟨?_, ?_, ?_⟩ <;>
      simp [river_width_impl, river_width, List.getD, hproj]

/-- C10: when the input already carries a `rivlen` column those values are
used unchanged (the geometry length capability is never consulted), and
only with the column absent is `rivlen` computed as the planar length of
each geometry reprojected to the mask CRS; the width formula and validity
test read exactly `rivlen_of`. -/
theorem river_width_rivlen_column_passthrough (ext : Externals) :
    (∀ crs geoms l sc, rivlen_of ext crs ⟨geoms, some l, sc⟩ = l) ∧
    (∀ crs geoms sc, rivlen_of ext crs ⟨geoms, none, sc⟩ =
      geoms.map (ext.to_crs_length crs)) ∧
    (∀ gdf da nmin, da.crs.projected = true →
      river_width ext gdf da nmin = .ok (List.zipWith
        (fun c l => if 0 < l ∧ nmin < c then c * cellarea da / l else -9999)
        (seg_count ext gdf da) (rivlen_of ext da.crs gdf))) := by
  refine ⟨fun crs geoms l sc => rfl, fun crs geoms sc => rfl, ?_⟩
  intro gdf da nmin h
  simp [river_width, h]

/-!
## Claims about `river_depth`
-/

/-- C3: with method `powlaw`, `river_depth` returns elementwise
`max (hc * qbankfull ^ hp) min_rivdph` (defaults `hc = 0.27`,
`hp = 0.30`), and every element whose `qbankfull` is 0 comes out as
exactly `min_rivdph` (for the meaningful parameters `hp ≠ 0`,
`0 ≤ min_rivdph`, both satisfied by the defaults). -/
theorem river_depth_powlaw_spec (data : DataInput) (flwdir : Option Flwdir)
    (min_rivdph manning : ℝ) (qn wn zn dn sn : String) (hc hp : ℝ)
    (hmin : 0 ≤ min_rivdph) (hhp : hp ≠ 0) :
    river_depth_raw data "powlaw" flwdir min_rivdph manning qn wn zn dn sn
        hc hp =
      .ok ((getCol data qn).map
        (fun q => max (hc * Real.rpow q hp) min_rivdph)) ∧
    river_depth data "powlaw" flwdir min_rivdph manning qn wn zn dn sn
        hc hp =
      .ok (if data.is_dataset then
          .dataArray data.meta.rdims data.meta.rcoords data.meta.rcrs
            (-9999.0) ((getCol data qn).map
              (fun q => max (hc * Real.rpow q hp) min_rivdph))
        else
          .arr ((getCol data qn).map
            (fun q => max (hc * Real.rpow q hp) min_rivdph))) ∧
    (∀ i, (getCol data qn).get? i = some 0 →
      ((getCol data qn).map
        (fun q => max (hc * Real.rpow q hp) min_rivdph)).get? i =
          some min_rivdph) := by
  refine ⟨rfl, ?_, ?_⟩
  · simp [river_depth, river_depth_raw, rivdph_powlaw, Except.map]
  · intro i hi
    rw [List.get?_map, hi]
    simp [Real.zero_rpow hhp, max_eq_right hmin]

/-- C5: any method other than `powlaw`, `manning`, `gvf` makes
`river_depth` fail with `UnsupportedMethodError` carrying the offending
value and the list of the three legal choices. -/
theorem river_depth_unsupported_method (data : DataInput)
    (flwdir : Option Flwdir) (min_rivdph manning : ℝ)
    (qn wn zn dn sn : String) (hc hp : ℝ) (method : String)
    (h : method ∉ methods) :
    river_depth data method flwdir min_rivdph manning qn wn zn dn sn
        hc hp =
      .error (.unsupportedMethod method methods) ∧
    methods = ["powlaw", "manning", "gvf"] := by
  simp only [methods, List.mem_cons, List.mem_singleton, not_or] at h
  obtain ⟨h1, h2, h3, -⟩ := h
  refine ⟨?_, rfl⟩
  simp [river_depth, river_depth_raw, h1, h2, h3, Except.map, methods]

/-- C6: with method `manning` or `gvf` and no flow-network collaborator,
`river_depth` fails with `MissingDependencyError` without invoking any
depth computation. -/
theorem river_depth_missing_flwdir (data : DataInput)
    (min_rivdph manning : ℝ) (qn wn zn dn sn : String) (hc hp : ℝ)
    (method : String) (h : method = "manning" ∨ method = "gvf") :
    river_depth data method none min_rivdph manning qn wn zn dn sn hc hp =
      .error .missingDependency := by
  rcases h with h | h <;> subst h <;>
    simp [river_depth, river_depth_raw, Except.map]

/-- C8: the computed depth array is re-wrapped as a georeferenced field
carrying the input's dims, coords and CRS with nodata `-9999.0` exactly
when the input is a full gridded dataset; for table-shaped inputs the raw
array is returned unwrapped. -/
theorem river_depth_output_wrapping (data : DataInput) (method : String)
    (flwdir : Option Flwdir) (min_rivdph manning : ℝ)
    (qn wn zn dn sn : String) (hc hp : ℝ) (raw : List ℝ)
    (h : river_depth_raw data method flwdir min_rivdph manning qn wn zn dn
      sn hc hp = .ok raw) :
    (data.is_dataset = true →
      river_depth data method flwdir min_rivdph manning qn wn zn dn sn
          hc hp =
        .ok (.dataArray data.meta.rdims data.meta.rcoords data.meta.rcrs
          (-9999.0) raw)) ∧
    (data.is_dataset = false →
      river_depth data method flwdir min_rivdph manning qn wn zn dn sn
          hc hp = .ok (.arr raw)) := by
  constructor <;> intro hds <;>
    simp [river_depth, h, Except.map, hds]

/-!
## Witnesses: each hypothesis-bearing claim theorem applied at a
concrete input
-/

/-- Witness for C1 at the concrete fixtures: the 7-cell segment of
length 2 gets width `7 * 1 / 2` and the zero-length segment `-9999`. -/
theorem river_width_formula_witness :
    daT.crs.projected = true ∧
    river_width extT gdfT daT 5 = .ok [7 / 2, -9999] := by
  refine ⟨rfl, ((river_width_formula extT gdfT daT 5 rfl).2.1).trans ?_⟩
  have hsc : seg_count extT gdfT daT = [7, 0] := by decide
  have hrl : rivlen_of extT daT.crs gdfT = [2, 0] := by decide
  rw [hsc, hrl]
  exact congrArg Except.ok (by norm_num [cellarea, daT])

/-- Witness for C2: two label grids differing only at the mask-false
cell give the same zonal sum. -/
theorem river_width_seg_count_original_mask_witness :
    ([1, 1, 1, 1, 1, 1, 1, 5] : List ℤ).length =
      ([1, 1, 1, 1, 1, 1, 1, 9] : List ℤ).length ∧
    (∀ i, i < daT.data.length → daT.data.get? i = some true →
      ([1, 1, 1, 1, 1, 1, 1, 5] : List ℤ).get? i =
        ([1, 1, 1, 1, 1, 1, 1, 9] : List ℤ).get? i) ∧
    zonal_sum daT.data [1, 1, 1, 1, 1, 1, 1, 5] 1 =
      zonal_sum daT.data [1, 1, 1, 1, 1, 1, 1, 9] 1 :=
  ⟨by decide, by decide,
    (river_width_seg_count_original_mask extT gdfT daT).2
      [1, 1, 1, 1, 1, 1, 1, 5] [1, 1, 1, 1, 1, 1, 1, 9] 1
      (by decide) (by decide)⟩

/-- Witness for C4: the geographic-CRS raster makes the call fail and
leaves a concrete heap untouched. -/
theorem river_width_invalid_projection_witness :
    daG.crs.projected = false ∧
    river_width extT gdfT daG 5 = .error .invalidProjection ∧
    river_width_impl extT ⟨[gdfT], [daG]⟩ 0 0 5 =
      (⟨[gdfT], [daG]⟩, .error .invalidProjection) :=
  ⟨rfl, (river_width_invalid_projection extT gdfT daG 5 rfl).1,
    (river_width_invalid_projection extT gdfT daG 5 rfl).2
      ⟨[gdfT], [daG]⟩ 0 0 rfl⟩

/-- Witness for C7: the second fixture segment has `rivlen = 0` and
comes out as the sentinel while the call succeeds. -/
theorem river_width_zero_rivlen_sentinel_witness :
    daT.crs.projected = true ∧
    ∃ ws, river_width extT gdfT daT 5 = .ok ws ∧
      ws.get? 1 = some (-9999) := by
  refine ⟨rfl, ?_⟩
  obtain ⟨ws, hws, hs⟩ := river_width_zero_rivlen_sentinel extT gdfT daT 5 rfl
  exact ⟨ws, hws, hs 1 0 (by decide) (by decide)⟩

/-- Witness for C9 on a concrete heap with one GeoDataFrame and one
raster. -/
theorem river_width_no_input_mutation_witness :
    (0 < heapT.gdfs.length ∧ 0 < heapT.rasters.length) ∧
    (river_width_impl extT heapT 0 0 5).1.gdfs.get? 0 = heapT.gdfs.get? 0 ∧
    (river_width_impl extT heapT 0 0 5).1.rasters.get? 0 =
      heapT.rasters.get? 0 ∧
    (river_width_impl extT heapT 0 0 5).2 =
      river_width extT (heapT.gdfs.getD 0 default)
        (heapT.rasters.getD 0 default) 5 :=
  ⟨⟨by decide, by decide⟩,
    river_width_no_input_mutation extT heapT 0 0 5 (by decide) (by decide)⟩

/-- Witness for C10: the supplied `rivlen` column `[2, 0]` is used as is,
and with the column absent the geometry lengths `[10, 20]` are used. -/
theorem river_width_rivlen_column_passthrough_witness :
    rivlen_of extT crsP ⟨[10, 20], some [2, 0], none⟩ = [2, 0] ∧
    rivlen_of extT crsP ⟨[10, 20], none, none⟩ = [10, 20] ∧
    daT.crs.projected = true ∧
    river_width extT gdfT daT 5 = .ok (List.zipWith
      (fun c l => if 0 < l ∧ 5 < c then c * cellarea daT / l else -9999)
      (seg_count extT gdfT daT) (rivlen_of extT daT.crs gdfT)) := by
  have h := river_width_rivlen_column_passthrough extT
  refine ⟨h.1 crsP [10, 20] [2, 0] none, ?_, rfl, h.2.2 gdfT daT 5 rfl⟩
  rw [h.2.1 crsP [10, 20] none]
  decide

/-- Witness for C3 at `qbankfull = 0`, `min_rivdph = 1`, the default
`hc = 0.27`, `hp = 0.30`: the returned element is exactly 1. -/
theorem river_depth_powlaw_spec_witness :
    (0 : ℝ) ≤ 1 ∧ (0.30 : ℝ) ≠ 0 ∧
    ((getCol dataT "qbankfull").map
      (fun q => max (0.27 * Real.rpow q 0.30) 1)).get? 0 = some 1 :=
  ⟨zero_le_one, by norm_num,
    (river_depth_powlaw_spec dataT none 1 0.03 "qbankfull" "rivwth"
      "rivzs" "rivdst" "rivslp" 0.27 0.30 zero_le_one (by norm_num)).2.2
      0 rfl⟩

/-- Witness for C5 at the unknown method `"bogus"`. -/
theorem river_depth_unsupported_method_witness :
    ("bogus" : String) ∉ methods ∧
    river_depth dataT "bogus" none 1 0.03 "qbankfull" "rivwth" "rivzs"
        "rivdst" "rivslp" 0.27 0.30 =
      .error (.unsupportedMethod "bogus" methods) :=
  ⟨by decide,
    (river_depth_unsupported_method dataT none 1 0.03 "qbankfull"
      "rivwth" "rivzs" "rivdst" "rivslp" 0.27 0.30 "bogus" (by decide)).1⟩

/-- Witness for C6 at method `"manning"` with no flow network. -/
theorem river_depth_missing_flwdir_witness :
    (("manning" : String) = "manning" ∨ ("manning" : String) = "gvf") ∧
    river_depth dataT "manning" none 1 0.03 "qbankfull" "rivwth" "rivzs"
        "rivdst" "rivslp" 0.27 0.30 = .error .missingDependency :=
  ⟨Or.inl rfl,
    river_depth_missing_flwdir dataT 1 0.03 "qbankfull" "rivwth" "rivzs"
      "rivdst" "rivslp" 0.27 0.30 "manning" (Or.inl rfl)⟩

/-- Witness for C8 on a table-shaped input: the raw (empty) array comes
back unwrapped. -/
theorem river_depth_output_wrapping_witness :
    river_depth_raw dataF "powlaw" none 1 0.03 "qbankfull" "rivwth"
        "rivzs" "rivdst" "rivslp" 0.27 0.30 = .ok [] ∧
    dataF.is_dataset = false ∧
    river_depth dataF "powlaw" none 1 0.03 "qbankfull" "rivwth" "rivzs"
        "rivdst" "rivslp" 0.27 0.30 = .ok (.arr []) := by
  have hraw : river_depth_raw dataF "powlaw" none 1 0.03 "qbankfull"
      "rivwth" "rivzs" "rivdst" "rivslp" 0.27 0.30 = .ok [] := by
    simp [river_depth_raw, rivdph_powlaw, getCol, dataF]
  exact ⟨hraw, rfl,
    (river_depth_output_wrapping dataF "powlaw" none 1 0.03 "qbankfull"
      "rivwth" "rivzs" "rivdst" "rivslp" 0.27 0.30 [] hraw).2 rfl⟩

end HydromtRivers
